import Mathlib

/-!
Verification development for gammafit/radiative.py.

The file shallowly embeds the three emission models of the repository
(Synchrotron, InverseCompton, PionDecay) over the real numbers:

* numpy floating-point arrays become `List ℝ` (energies are carried in eV at
  the public `flux`/`sed` boundary, matching the `.to` unit conversions in the
  source, with the conversion constants made explicit);
* `scipy.integrate.quad` (an adaptive quadrature routine) is abstracted as a
  functional parameter `(ℝ → ℝ) → ℝ` (for the 0..1 integral) or
  `(ℝ → ℝ) → ℝ → ℝ` (for the a..∞ integrals); properties needed of it
  (homogeneity in a constant factor) are explicit hypotheses;
* `np.trapz` is embedded as the exact trapezoidal sum `trapz`;
* the user-supplied particle distribution is an arbitrary function `ℝ → ℝ`;
* Python exceptions (the `TypeError` of seed processing, the validation error
  on a non-positive `Etrans`) become `Except Unit`;
* the mutable instance attributes of `PionDecay` that `flux` reads or writes
  (`nhat`, `Etrans`, `Wp`) become an explicit state record threaded through
  `pdFlux`;
* the external unit-validation service (`_validate_ene`, `validate_scalar`) is
  the identity on well-formed input; its rejection of a non-positive `Etrans`
  is kept, since `PionDecay.flux` invokes it on the instance attribute.
-/

/- ---------------------------------------------------------------- -/
/- Physical constants (numeric values of the astropy constants used
   by radiative.py, in the units the source strips them to).          -/
/- ---------------------------------------------------------------- -/

/-- Conversion factor: erg per eV (`u.eV` to `u.erg`). -/
noncomputable def eVtoErg : ℝ := 1.602176487e-12

/-- Conversion factor: TeV per eV.  The same number also converts a
per-TeV differential density to a per-eV one. -/
noncomputable def eV2TeV : ℝ := 1e-12

/-- Speed of light `c.cgs.value` in cm/s. -/
noncomputable def cCGS : ℝ := 2.99792458e10

/-- Electron charge `e.gauss.value` in esu. -/
noncomputable def eCharge : ℝ := 4.80320427e-10

/-- Electron mass `m_e.cgs.value` in g. -/
noncomputable def meG : ℝ := 9.10938215e-28

/-- Reduced Planck constant `hbar.cgs.value` in erg s. -/
noncomputable def hbarCGS : ℝ := 1.054571628e-27

/-- Electron rest-mass energy `(m_e c^2).cgs` in erg. -/
noncomputable def mec2erg : ℝ := 8.18710438e-7

/-- Electron rest-mass energy `(m_e c^2)` converted to TeV. -/
noncomputable def mec2TeV : ℝ := 5.10998910e-7

/-- Radiation constant `ar = 4 sigma_sb / c` in erg cm^-3 K^-4. -/
noncomputable def arCGS : ℝ := 7.565767e-15

/- ---------------------------------------------------------------- -/
/- Shared list-level numerics: np.linspace / np.logspace / np.trapz. -/
/- ---------------------------------------------------------------- -/

/-- Embedding of `np.linspace(a, b, n)`: `n` evenly spaced samples from `a`
to `b` inclusive (step `(b - a)/(n - 1)`). -/
noncomputable def linspace (a b : ℝ) (n : ℕ) : List ℝ :=
  (List.range n).map (fun i : ℕ => a + (b - a) * (i : ℝ) / ((n : ℝ) - 1))

/-- Embedding of `np.logspace(a, b, n)`: `10 ** linspace(a, b, n)`. -/
noncomputable def logspace (a b : ℝ) (n : ℕ) : List ℝ :=
  (linspace a b n).map (fun t => (10 : ℝ) ^ t)

/-- Embedding of `np.trapz(y, x)`: the trapezoidal-rule sum
`Σ (x_{i+1} - x_i) * (y_i + y_{i+1}) / 2`. -/
noncomputable def trapz : List ℝ → List ℝ → ℝ
  | y1 :: y2 :: ys, x1 :: x2 :: xs =>
      (x2 - x1) * (y1 + y2) / 2 + trapz (y2 :: ys) (x2 :: xs)
  | _, _ => 0

/- ---------------------------------------------------------------- -/
/- PionDecay: cross-sections and integrands.                          -/
/- ---------------------------------------------------------------- -/

/-- Source line 27: `heaviside = lambda x: (np.sign(x) + 1) / 2.`. -/
noncomputable def heaviside (x : ℝ) : ℝ := (Real.sign x + 1) / 2

/-- Kinematic threshold energy `Eth = 1.22e-3` TeV (1.22 GeV). -/
noncomputable def EthTeV : ℝ := 1.22e-3

/-- Embedding of `PionDecay._sigma_inel` (KAB06 Eq. 73/79): the inelastic
p-p cross-section in cm^2 for a proton energy `Ep` in TeV.  The polynomial
`34.3 + 1.88 L + 0.25 L^2` (`L = log Ep`) is multiplied, for `Ep <= 0.1`,
by the sub-threshold suppression `(1 - (Eth/Ep)^4)^2 * heaviside(Ep - Eth)`,
and finally by `1e-27` (mbarn to cm^2). -/
noncomputable def sigma_inel (Ep : ℝ) : ℝ :=
  (if Ep ≤ 0.1 then
      (34.3 + 1.88 * Real.log Ep + 0.25 * Real.log Ep ^ 2) *
        ((1 - (EthTeV / Ep) ^ 4) ^ 2 * heaviside (Ep - EthTeV))
    else
      (34.3 + 1.88 * Real.log Ep + 0.25 * Real.log Ep ^ 2)) * 1e-27

/-- Mean fraction `_Kpi = 0.17` of the proton energy transferred to the pion. -/
noncomputable def Kpi : ℝ := 0.17

/-- Proton rest-mass energy `_mp = (m_p * c^2).to('TeV').value`. -/
noncomputable def mpTeV : ℝ := 9.38272013e-4

/-- Neutral-pion rest mass `_m_pi = 1.349766e-4` TeV. -/
noncomputable def mpiTeV : ℝ := 1.349766e-4

/-- Embedding of `PionDecay._Fgamma` (KAB06 Eq. 58): differential photon
yield for `x = Egamma/Eprot` and a proton energy `Ep` in TeV; `L = log Ep`,
the coefficients `B`, `beta`, `k` are Eq. 59-61, `xb = x ** beta`. -/
noncomputable def Fgamma (x Ep : ℝ) : ℝ :=
  let L := Real.log Ep
  let B := 1.30 + 0.14 * L + 0.011 * L ^ 2
  let beta := (1.79 + 0.11 * L + 0.008 * L ^ 2)⁻¹
  let k := (0.801 + 0.049 * L + 0.014 * L ^ 2)⁻¹
  let xb := x ^ beta
  let F1 := B * (Real.log x / x) * ((1 - xb) / (1 + k * xb * (1 - xb))) ^ 4
  let F2 := 1 / Real.log x - (4 * beta * xb) / (1 - xb) -
    (4 * k * beta * xb * (1 - 2 * xb)) / (1 + k * xb * (1 - xb))
  F1 * F2

/-- Integrand of KAB06 Eq. 72 (`PionDecay._photon_integrand`):
`sigma_inel(Eg/x) * J(Eg/x) * Fgamma(x, Eg/x) / x` for the proton
distribution `J` (particles per TeV, at an energy in TeV). -/
noncomputable def photon_integrand (J : ℝ → ℝ) (x Eg : ℝ) : ℝ :=
  sigma_inel (Eg / x) * J (Eg / x) * Fgamma x (Eg / x) / x

/-- Embedding of `PionDecay._calc_specpp_hiE` (Eq. 42, used for photon
energies at or above the transition): `c * quad(photon_integrand, 0, 1)` in
1/(s TeV), where `quad01` abstracts the adaptive quadrature
`scipy.integrate.quad(f, 0., 1., epsrel=1e-3, epsabs=0)`. -/
noncomputable def calc_specpp_hiE (J : ℝ → ℝ) (quad01 : (ℝ → ℝ) → ℝ)
    (Eg : ℝ) : ℝ :=
  cCGS * quad01 (fun x => photon_integrand J x Eg)

/-- Embedding of `PionDecay._delta_integrand`: with `Ep0 = mp + Epi/Kpi` and
`qpi = c * (nhat/Kpi) * sigma_inel(Ep0) * J(Ep0)`, the integrand is
`qpi / sqrt(Epi^2 + m_pi^2)`. -/
noncomputable def delta_integrand (J : ℝ → ℝ) (nhat Epi : ℝ) : ℝ :=
  cCGS * (nhat / Kpi) * sigma_inel (mpTeV + Epi / Kpi) *
    J (mpTeV + Epi / Kpi) / Real.sqrt (Epi ^ 2 + mpiTeV ^ 2)

/-- Embedding of `PionDecay._calc_specpp_loE` (delta-functional approximation
for photon energies below the transition): `2 * quad(delta_integrand, Epimin,
inf)` with `Epimin = Eg + m_pi^2/(4 Eg)`, in 1/(s TeV); `quadInf f a`
abstracts `scipy.integrate.quad(f, a, np.inf, epsrel=1e-3, epsabs=0)`. -/
noncomputable def calc_specpp_loE (J : ℝ → ℝ) (quadInf : (ℝ → ℝ) → ℝ → ℝ)
    (nhat Eg : ℝ) : ℝ :=
  2 * quadInf (delta_integrand J nhat) (Eg + mpiTeV ^ 2 / (4 * Eg))

/-- Mutable `PionDecay` instance attributes that `flux` reads or writes: the
calibration factor `nhat`, the transition energy `Etrans` in TeV (`none`
models "attribute not set", as on a fresh instance) and the reported total
proton energy `Wp`. -/
structure PDState where
  nhat : ℝ
  Etrans : Option ℝ
  Wp : Option ℝ

/-- Mixed-regime condition of `PionDecay.flux`:
`np.any(outspecene < self.Etrans) and np.any(outspecene >= self.Etrans)`
(requested photon energies in eV, transition energy in TeV). -/
def pdMixed (E : List ℝ) (Et : ℝ) : Prop :=
  (∃ e ∈ E, e * eV2TeV < Et) ∧ (∃ e ∈ E, Et ≤ e * eV2TeV)

noncomputable instance (E : List ℝ) (Et : ℝ) : Decidable (pdMixed E Et) :=
  inferInstanceAs
    (Decidable ((∃ e ∈ E, e * eV2TeV < Et) ∧ (∃ e ∈ E, Et ≤ e * eV2TeV)))

/-- Calibration factor computed once per `PionDecay.flux` call: the initial
value 1.0 is, when the requested energies straddle `Etrans`, multiplied by
`full / delta` — the direct-integral value at `Etrans` over the
delta-functional value at `Etrans` computed with `nhat = 1`. -/
noncomputable def pdNhat (J : ℝ → ℝ) (quad01 : (ℝ → ℝ) → ℝ)
    (quadInf : (ℝ → ℝ) → ℝ → ℝ) (Et : ℝ) (E : List ℝ) : ℝ :=
  if pdMixed E Et then
    1 * (calc_specpp_hiE J quad01 Et / calc_specpp_loE J quadInf 1 Et)
  else 1

/-- Per-energy regime dispatch of `PionDecay.flux`: each requested photon
energy (in eV) at or above `Etrans` goes to the direct integral, the others
to the delta-functional formula with the calibrated `nhat`; the per-TeV
values are converted to per-eV (`.to('1/(s eV)')`). -/
noncomputable def pdSpec (J : ℝ → ℝ) (quad01 : (ℝ → ℝ) → ℝ)
    (quadInf : (ℝ → ℝ) → ℝ → ℝ) (Et nh : ℝ) (E : List ℝ) : List ℝ :=
  E.map (fun e =>
    (if Et ≤ e * eV2TeV then calc_specpp_hiE J quad01 (e * eV2TeV)
     else calc_specpp_loE J quadInf nh (e * eV2TeV)) * eV2TeV)

/-- Reported total proton energy above threshold (the `Wp` informational side
effect of `PionDecay.flux`): `quad(x * J(x), Eth, inf)`. -/
noncomputable def pdWp (J : ℝ → ℝ) (quadInf : (ℝ → ℝ) → ℝ → ℝ) : ℝ :=
  quadInf (fun x => x * J x) EthTeV

/-- One `PionDecay.flux` call after the transition energy has been resolved
to `Et`: computes `nhat` once, dispatches every energy, and returns the
updated instance state together with the output spectrum. -/
noncomputable def pdRun (J : ℝ → ℝ) (quad01 : (ℝ → ℝ) → ℝ)
    (quadInf : (ℝ → ℝ) → ℝ → ℝ) (Et Wp : ℝ) (E : List ℝ) :
    PDState × List ℝ :=
  (⟨pdNhat J quad01 quadInf Et E, some Et, some Wp⟩,
   pdSpec J quad01 quadInf Et (pdNhat J quad01 quadInf Et E) E)

/-- Embedding of `PionDecay.flux`: reports `Wp`, defaults `Etrans` to 0.1 TeV
when the attribute is not yet set and otherwise validates that it is positive
(`validate_scalar` raises on a non-positive value, modelled by
`Except.error`), then calibrates `nhat` and dispatches via `pdRun`. -/
noncomputable def pdFlux (J : ℝ → ℝ) (quad01 : (ℝ → ℝ) → ℝ)
    (quadInf : (ℝ → ℝ) → ℝ → ℝ) (s : PDState) (E : List ℝ) :
    Except Unit (PDState × List ℝ) :=
  match s.Etrans with
  | none => .ok (pdRun J quad01 quadInf 0.1 (pdWp J quadInf) E)
  | some t =>
      if 0 < t then .ok (pdRun J quad01 quadInf t (pdWp J quadInf) E)
      else .error ()

/-- Embedding of `PionDecay.sed`: calls `flux` and multiplies the spectrum
elementwise by the squared photon energy, converted to erg/s. -/
noncomputable def pdSed (J : ℝ → ℝ) (quad01 : (ℝ → ℝ) → ℝ)
    (quadInf : (ℝ → ℝ) → ℝ → ℝ) (s : PDState) (E : List ℝ) :
    Except Unit (PDState × List ℝ) :=
  match pdFlux J quad01 quadInf s E with
  | .error err => .error err
  | .ok (st, sp) =>
      .ok (st, List.zipWith (fun f en => f * en ^ 2 * eVtoErg) sp E)

/-- Constant unit proton distribution, used to instantiate witnesses. -/
noncomputable def pdJone : ℝ → ℝ := fun _ => 1

/-- Point-evaluation stand-in for the a..∞ adaptive quadrature, used to
instantiate witnesses; it is homogeneous in a constant factor. -/
noncomputable def pdQuadEval : (ℝ → ℝ) → ℝ → ℝ := fun f a => f (a + 1)

/-- Point-evaluation stand-in for the 0..1 adaptive quadrature, used to
instantiate witnesses. -/
noncomputable def pdQuadZero : (ℝ → ℝ) → ℝ := fun f => f 1

/-- Fresh-instance state with an arbitrary stale calibration factor. -/
noncomputable def pdStateA : PDState := ⟨5, none, none⟩

/-- Another fresh-instance state with a different stale calibration factor. -/
noncomputable def pdStateB : PDState := ⟨7, none, none⟩

/- ---------------------------------------------------------------- -/
/- InverseCompton: the isotropic IC cross-section kernel.             -/
/- ---------------------------------------------------------------- -/

/-- Kelvin-to-mec2 conversion constant `Ktomec2 = 1.6863699549e-10` from
`iso_ic_on_planck`. -/
noncomputable def Ktomec2 : ℝ := 1.6863699549e-10

/-- Inner function `g(x, a)` of `iso_ic_on_planck`:
`1 / (a[0] * x**a[1] / (1 + a[2] * x**a[3]) + 1)` (real powers). -/
noncomputable def gKAK (a0 a1 a2 a3 x : ℝ) : ℝ :=
  1 / (a0 * x ^ a1 / (1 + a2 * x ^ a3) + 1)

/-- Ratio `z = gamma_energy / electron_energy` of `iso_ic_on_planck`. -/
noncomputable def icZ (Ee Eg : ℝ) : ℝ := Eg / Ee

/-- Argument `x = z / (1 - z) / (4 * electron_energy * soft_photon_temperature)`
of `iso_ic_on_planck`, the temperature (in K) having been rescaled by
`Ktomec2`. -/
noncomputable def icX (Ee T Eg : ℝ) : ℝ :=
  icZ Ee Eg / (1 - icZ Ee Eg) / (4 * Ee * (T * Ktomec2))

/-- Factor `F = (1.644934 + 1.644934 x) / (1 + 1.644934 x) * exp(-x)` of
`iso_ic_on_planck`. -/
noncomputable def icF (x : ℝ) : ℝ :=
  (1.644934 + 1.644934 * x) / (1 + 1.644934 * x) * Real.exp (-x)

/-- Unmasked cross-section of `iso_ic_on_planck`:
`(T'/Ee)^2 * 2.6433905738281024e16 * (F * (z^2/(2(1-z)) * g(x,a3) + g(x,a4)))`. -/
noncomputable def icCrossSection (Ee T Eg : ℝ) : ℝ :=
  (T * Ktomec2 / Ee) ^ 2 * 2.6433905738281024e16 *
    (icF (icX Ee T Eg) *
      (icZ Ee Eg ^ 2 / (2 * (1 - icZ Ee Eg)) * gKAK 0.192 0.448 0.546 1.377 (icX Ee T Eg)
        + gKAK 1.69 0.549 1.06 1.406 (icX Ee T Eg)))

/-- Embedding of `iso_ic_on_planck(electron_energy, T, gamma_energy)` for one
(electron energy, photon energy) pair, both in units of the electron rest-mass
energy: `np.where` masks the cross-section to zero except where
`gamma_energy < electron_energy` and `electron_energy > 1`. -/
noncomputable def iso_ic_on_planck (Ee T Eg : ℝ) : ℝ :=
  if Eg < Ee ∧ 1 < Ee then icCrossSection Ee T Eg else 0

/- ---------------------------------------------------------------- -/
/- Synchrotron.                                                       -/
/- ---------------------------------------------------------------- -/

/-- Grid size of `Synchrotron._nelec`: the source computes
`np.logspace(log10gmin, log10gmax, ngamd * log10gmax / log10gmin)` with
`log10gmin = 4`, `log10gmax = 10`, `ngamd = 100`, i.e. `100 * 10 / 4 = 250`
points (an exact true division in Python). -/
def syncNgam : ℕ := 100 * 10 / 4

/-- Particle grid of `Synchrotron._nelec`: `np.logspace(4, 10, 100*10/4)`
(Lorentz factors, i.e. energies in units of the electron rest-mass energy). -/
noncomputable def syncGam : List ℝ := logspace 4 10 syncNgam

/-- Population sample of `Synchrotron._nelec`: the distribution evaluated on
the grid, `particle_distribution(gam * mec2.to('TeV'))`. -/
noncomputable def syncNelec (J : ℝ → ℝ) : List ℝ :=
  syncGam.map (fun g => J (g * mec2TeV))

/-- Real cube root, embedding `scipy.special.cbrt` (defined for negative
arguments as the odd extension). -/
noncomputable def cbrt (x : ℝ) : ℝ :=
  if 0 ≤ x then x ^ ((1:ℝ)/3) else -((-x) ^ ((1:ℝ)/3))

/-- AKP10 Eq. D7 kernel of `Synchrotron.flux`:
`1.808 cbrt(x)/sqrt(1 + 3.4 cbrt(x)^2)
  * (1 + 2.210 cbrt(x)^2 + 0.347 cbrt(x)^4)
  / (1 + 1.353 cbrt(x)^2 + 0.217 cbrt(x)^4) * exp(-x)`. -/
noncomputable def Gtilde (x : ℝ) : ℝ :=
  (1.808 * cbrt x / Real.sqrt (1 + 3.4 * cbrt x ^ 2)) *
    ((1 + 2.210 * cbrt x ^ 2 + 0.347 * cbrt x ^ 4) /
      (1 + 1.353 * cbrt x ^ 2 + 0.217 * cbrt x ^ 4)) *
    Real.exp (-x)

/-- Prefactor `CS1 = sqrt(3) e^3 B / (2 pi m_e c^2 hbar E_erg)` of
`Synchrotron.flux` for a photon energy `eErg` in erg. -/
noncomputable def syncCS1 (B eErg : ℝ) : ℝ :=
  Real.sqrt 3 * eCharge ^ 3 * B / (2 * Real.pi * meG * cCGS ^ 2 * hbarCGS * eErg)

/-- Critical synchrotron energy (erg) for a grid Lorentz factor `g`:
`Ec = 3 e hbar B g^2 / (2 (m_e c))`. -/
noncomputable def syncEc (B g : ℝ) : ℝ :=
  3 * eCharge * hbarCGS * B * g ^ 2 / (2 * (meG * cCGS))

/-- Embedding of `Synchrotron.flux`: for each requested photon energy (eV)
the emission coefficient `CS1 * Gtilde(E/Ec)` is integrated over the particle
grid against the population sample by trapezoidal quadrature; the 1/(s erg)
result is converted to 1/(s eV). -/
noncomputable def syncFlux (J : ℝ → ℝ) (B : ℝ) (E : List ℝ) : List ℝ :=
  E.map (fun en =>
    trapz
      (List.zipWith
        (fun ne g => ne * (syncCS1 B (en * eVtoErg) *
          Gtilde (en * eVtoErg / syncEc B g)))
        (syncNelec J) syncGam)
      syncGam * eVtoErg)

/-- Embedding of `Synchrotron.sed`: `flux * photon_energy^2`, converted to
erg/s. -/
noncomputable def syncSed (J : ℝ → ℝ) (B : ℝ) (E : List ℝ) : List ℝ :=
  List.zipWith (fun f en => f * en ^ 2 * eVtoErg) (syncFlux J B E) E

/- ---------------------------------------------------------------- -/
/- InverseCompton: seed photon fields and flux.                       -/
/- ---------------------------------------------------------------- -/

/-- CMB temperature `Tcmb = 2.72548` K. -/
noncomputable def Tcmb : ℝ := 2.72548

/-- FIR seed temperature `Tfir = 70` K. -/
noncomputable def Tfir : ℝ := 70

/-- NIR seed temperature `Tnir = 5000` K. -/
noncomputable def Tnir : ℝ := 5000

/-- FIR seed energy density `ufir = 0.2 eV/cm^3`, in erg/cm^3. -/
noncomputable def ufirErg : ℝ := 0.2 * eVtoErg

/-- NIR seed energy density `unir = 0.2 eV/cm^3`, in erg/cm^3. -/
noncomputable def unirErg : ℝ := 0.2 * eVtoErg

/-- FIR dilution factor `(ufir / (ar * Tfir^4)).decompose()`. -/
noncomputable def firUf : ℝ := ufirErg / (arCGS * Tfir ^ 4)

/-- NIR dilution factor `(unir / (ar * Tnir^4)).decompose()`. -/
noncomputable def nirUf : ℝ := unirErg / (arCGS * Tnir ^ 4)

/-- Characters of the recognized seed name `CMB`. -/
def cmbName : List Char := "CMB".data

/-- Characters of the recognized seed name `FIR`. -/
def firName : List Char := "FIR".data

/-- Characters of the recognized seed name `NIR`. -/
def nirName : List Char := "NIR".data

/-- One entry of the `seed_photon_fields` input list: either a seed name
string or a 3-element `[name, T, u]` specification. -/
inductive SeedItem where
  | name (s : List Char)
  | spec (n : List Char) (T : ℝ) (u : ℝ)

/-- The `seed_photon_fields` constructor argument: either a (possibly
hyphen-joined) string or a list of items. -/
inductive SeedInput where
  | str (s : List Char)
  | list (l : List SeedItem)

/-- Helper for Python's `str.split('-')`: accumulates the current field in
reverse. -/
def splitDashAux : List Char → List Char → List (List Char)
  | [], acc => [acc.reverse]
  | c :: cs, acc =>
      if c = '-' then acc.reverse :: splitDashAux cs []
      else splitDashAux cs (c :: acc)

/-- Embedding of `seed_photon_fields.split('-')` on the character list of the
input string. -/
def splitDash (s : List Char) : List (List Char) := splitDashAux s []

/-- Iteration body of `InverseCompton._process_input_seed`: resolves each
item to a `(name, temperature in K, dilution factor)` triple, raising
`TypeError` (modelled by `Except.error`) on an unrecognized name or a
malformed specification.  For a 3-element spec the temperature is validated
positive, a zero energy density means the blackbody density implied by the
temperature (dilution 1), and a positive one is divided by `ar * T^4`.
The source stores the temperatures and dilution factors in dicts keyed by
the seed name and then iterates over the name list; the triple list models
that lookup directly (they agree whenever the seed names are distinct, as
for all the named seeds). -/
noncomputable def processSeedItems :
    List SeedItem → Except Unit (List (List Char × ℝ × ℝ))
  | [] => .ok []
  | SeedItem.name s :: rest =>
      if s = cmbName then
        (processSeedItems rest).map (fun l => (s, Tcmb, 1) :: l)
      else if s = firName then
        (processSeedItems rest).map (fun l => (s, Tfir, firUf) :: l)
      else if s = nirName then
        (processSeedItems rest).map (fun l => (s, Tnir, nirUf) :: l)
      else .error ()
  | SeedItem.spec n T uu :: rest =>
      if T ≤ 0 then .error ()
      else if uu = 0 then
        (processSeedItems rest).map (fun l => (n, T, 1) :: l)
      else if uu ≤ 0 then .error ()
      else
        (processSeedItems rest).map (fun l => (n, T, uu / (arCGS * T ^ 4)) :: l)

/-- Embedding of `InverseCompton._process_input_seed` (called from
`__init__`): a non-list input is first split on hyphens into a list of
names. -/
noncomputable def processInputSeed :
    SeedInput → Except Unit (List (List Char × ℝ × ℝ))
  | .str s => processSeedItems ((splitDash s).map SeedItem.name)
  | .list l => processSeedItems l

/-- Grid size of `InverseCompton._nelec`: the source computes
`np.logspace(log10gmin, log10gmax, ngamd * log10gmax / log10gmin)` with
`log10gmin = 4`, `log10gmax = 10.5`, `ngamd = 300`, i.e. the float
`300 * 10.5 / 4 = 787.5`, which the numpy of the source's era truncated with
`int(num)` to 787 points; with `10.5 = 21/2` the truncating natural-number
division below computes the same value. -/
def icNgam : ℕ := 300 * 21 / 2 / 4

/-- Particle grid of `InverseCompton._nelec`: `np.logspace(4, 10.5, n)`. -/
noncomputable def icGam : List ℝ := logspace 4 10.5 icNgam

/-- Population sample of `InverseCompton._nelec`:
`particle_distribution(gam * mec2)` (the energy handed to the distribution
is in erg, `mec2` being in cgs). -/
noncomputable def icNelec (J : ℝ → ℝ) : List ℝ :=
  icGam.map (fun g => J (g * mec2erg))

/-- Embedding of `InverseCompton._calc_specic` for one seed `(T, uf)` and one
requested photon energy `en` in eV: `Eph = (outspecene/mec2).cgs`, then
`lum = uf * Eph * np.trapz(nelec * gamint, gam)` with the kernel values
`gamint`, and the differential spectrum is `lum / outspecene` (per second
per eV). -/
noncomputable def calc_specic (J : ℝ → ℝ) (T uf en : ℝ) : ℝ :=
  uf * (en * eVtoErg / mec2erg) *
    trapz
      (List.zipWith (fun ne g => ne * iso_ic_on_planck g T (en * eVtoErg / mec2erg))
        (icNelec J) icGam)
      icGam / en

/-- Embedding of the seed loop of `InverseCompton.flux`: starting from
`np.zeros(len(outspecene))`, the contribution of every seed field is added
elementwise. -/
noncomputable def icFlux (J : ℝ → ℝ) (seeds : List (List Char × ℝ × ℝ))
    (E : List ℝ) : List ℝ :=
  seeds.foldl
    (fun acc sd => List.zipWith (fun a b => a + b) acc
      (E.map (calc_specic J sd.2.1 sd.2.2)))
    (E.map (fun _ => 0))

/-- Construction of an `InverseCompton` model from a `seed_photon_fields`
input followed by one `flux` call (construction may raise). -/
noncomputable def icFluxInput (J : ℝ → ℝ) (inp : SeedInput) (E : List ℝ) :
    Except Unit (List ℝ) :=
  (processInputSeed inp).map (fun seeds => icFlux J seeds E)

/-- Embedding of `InverseCompton.sed`: `flux * photon_energy^2`, converted
to erg/s. -/
noncomputable def icSed (J : ℝ → ℝ) (seeds : List (List Char × ℝ × ℝ))
    (E : List ℝ) : List ℝ :=
  List.zipWith (fun f en => f * en ^ 2 * eVtoErg) (icFlux J seeds E) E

/- ---------------------------------------------------------------- -/
/- Helper lemmas.                                                     -/
/- ---------------------------------------------------------------- -/

theorem gKAK_pos {a0 a2 x : ℝ} (a1 a3 : ℝ) (h0 : 0 ≤ a0) (h2 : 0 ≤ a2)
    (hx : 0 < x) : 0 < gKAK a0 a1 a2 a3 x := by
  unfold gKAK
  have hp1 : 0 < x ^ a1 := Real.rpow_pos_of_pos hx a1
  have hp3 : 0 < x ^ a3 := Real.rpow_pos_of_pos hx a3
  have hden : 0 < 1 + a2 * x ^ a3 := by positivity
  have hfrac : 0 ≤ a0 * x ^ a1 / (1 + a2 * x ^ a3) := by positivity
  positivity

theorem sigma_poly_pos (L : ℝ) : 0 < 34.3 + 1.88 * L + 0.25 * L ^ 2 := by
  nlinarith [sq_nonneg (L + 3.76)]

theorem heaviside_nonneg (x : ℝ) : 0 ≤ heaviside x := by
  unfold heaviside
  rcases lt_trichotomy x 0 with h | h | h
  · rw [Real.sign_of_neg h]; norm_num
  · rw [h, Real.sign_zero]; norm_num
  · rw [Real.sign_of_pos h]; norm_num

theorem heaviside_of_neg {x : ℝ} (h : x < 0) : heaviside x = 0 := by
  unfold heaviside
  rw [Real.sign_of_neg h]
  norm_num

theorem sigma_inel_pos {Ep : ℝ} (h : 0.1 < Ep) : 0 < sigma_inel Ep := by
  unfold sigma_inel
  rw [if_neg (not_le.mpr h)]
  have := sigma_poly_pos (Real.log Ep)
  nlinarith

/- ---------------------------------------------------------------- -/
/- Claim C8.                                                          -/
/- ---------------------------------------------------------------- -/

/-- C8: for every proton energy at or below the kinematic threshold of
1.22 GeV (1.22e-3 TeV) the pp inelastic cross-section `_sigma_inel` returns
exactly zero (suppressed by the step-function cutoff), and for every proton
energy above the threshold it returns a non-negative value. -/
theorem pd_sigma_inel_threshold (Ep : ℝ) :
    (Ep ≤ EthTeV → sigma_inel Ep = 0) ∧ (EthTeV < Ep → 0 ≤ sigma_inel Ep) := by
  constructor
  · intro h
    have h01 : Ep ≤ 0.1 := le_trans h (by norm_num [EthTeV])
    unfold sigma_inel
    rw [if_pos h01]
    rcases eq_or_lt_of_le h with heq | hlt
    · rw [heq]
      have hne : EthTeV ≠ 0 := by norm_num [EthTeV]
      rw [div_self hne]
      norm_num
    · rw [heaviside_of_neg (by linarith)]
      ring
  · intro h
    unfold sigma_inel
    by_cases h01 : Ep ≤ 0.1
    · rw [if_pos h01]
      have h1 : 0 ≤ 34.3 + 1.88 * Real.log Ep + 0.25 * Real.log Ep ^ 2 :=
        (sigma_poly_pos _).le
      have h2 : 0 ≤ (1 - (EthTeV / Ep) ^ 4) ^ 2 := sq_nonneg _
      have h3 : 0 ≤ heaviside (Ep - EthTeV) := heaviside_nonneg _
      positivity
    · rw [if_neg h01]
      have h1 : 0 ≤ 34.3 + 1.88 * Real.log Ep + 0.25 * Real.log Ep ^ 2 :=
        (sigma_poly_pos _).le
      positivity

/-- Witness for C8: the cross-section vanishes at 1e-3 TeV (below threshold)
and is non-negative at 1 TeV (above threshold). -/
theorem pd_sigma_inel_threshold_witness :
    sigma_inel 1e-3 = 0 ∧ 0 ≤ sigma_inel 1 :=
  ⟨(pd_sigma_inel_threshold 1e-3).1 (by norm_num [EthTeV]),
   (pd_sigma_inel_threshold 1).2 (by norm_num [EthTeV])⟩

/- ---------------------------------------------------------------- -/
/- Claim C4.                                                          -/
/- ---------------------------------------------------------------- -/

/-- C4: for every electron energy, positive blackbody temperature and positive
photon energy (energies in units of the electron rest-mass energy), the IC
cross-section kernel `iso_ic_on_planck` returns a non-negative (well-defined)
value, and returns exactly zero whenever the photon energy is at or above the
electron energy or the electron energy is at or below 1; the masked entries
are zero regardless of the value the unmasked expression would take. -/
theorem ic_kernel_safety (Ee T Eg : ℝ) (hT : 0 < T) (hEg : 0 < Eg) :
    0 ≤ iso_ic_on_planck Ee T Eg ∧
      ((Ee ≤ Eg ∨ Ee ≤ 1) → iso_ic_on_planck Ee T Eg = 0) := by
  constructor
  · unfold iso_ic_on_planck
    split_ifs with hc
    · obtain ⟨hlt, h1⟩ := hc
      have hEe : 0 < Ee := lt_trans one_pos h1
      have hz0 : 0 < icZ Ee Eg := div_pos hEg hEe
      have hz1 : icZ Ee Eg < 1 := (div_lt_one hEe).mpr hlt
      have hKt : (0:ℝ) < Ktomec2 := by norm_num [Ktomec2]
      have hx : 0 < icX Ee T Eg := by
        unfold icX
        exact div_pos (div_pos hz0 (by linarith)) (by positivity)
      have hF : 0 < icF (icX Ee T Eg) := by
        unfold icF
        have ha : 0 < 1.644934 + 1.644934 * icX Ee T Eg := by nlinarith
        have hb : 0 < 1 + 1.644934 * icX Ee T Eg := by nlinarith
        positivity
      have hg3 : 0 < gKAK 0.192 0.448 0.546 1.377 (icX Ee T Eg) :=
        gKAK_pos 0.448 1.377 (by norm_num) (by norm_num) hx
      have hg4 : 0 < gKAK 1.69 0.549 1.06 1.406 (icX Ee T Eg) :=
        gKAK_pos 0.549 1.406 (by norm_num) (by norm_num) hx
      have hzz : 0 ≤ icZ Ee Eg ^ 2 / (2 * (1 - icZ Ee Eg)) :=
        div_nonneg (sq_nonneg _) (by linarith)
      have hsum : 0 ≤ icZ Ee Eg ^ 2 / (2 * (1 - icZ Ee Eg)) *
          gKAK 0.192 0.448 0.546 1.377 (icX Ee T Eg)
          + gKAK 1.69 0.549 1.06 1.406 (icX Ee T Eg) :=
        add_nonneg (mul_nonneg hzz hg3.le) hg4.le
      unfold icCrossSection
      exact mul_nonneg (mul_nonneg (sq_nonneg _) (by norm_num))
        (mul_nonneg hF.le hsum)
    · exact le_refl 0
  · intro h
    unfold iso_ic_on_planck
    rw [if_neg]
    rintro ⟨hlt, h1⟩
    rcases h with h | h
    · exact absurd hlt (not_lt.mpr h)
    · exact absurd h1 (not_lt.mpr h)

/-- Witness for C4 at temperature 1 K, photon energy 1 and electron energy 1:
the kernel value is non-negative there, and the mask forces it to zero since
the electron energy is not above 1. -/
theorem ic_kernel_safety_witness :
    0 ≤ iso_ic_on_planck 1 1 1 ∧
      (((1:ℝ) ≤ 1 ∨ (1:ℝ) ≤ 1) → iso_ic_on_planck 1 1 1 = 0) :=
  ic_kernel_safety 1 1 1 (by norm_num) (by norm_num)

/- ---------------------------------------------------------------- -/
/- Claim C1.                                                          -/
/- ---------------------------------------------------------------- -/

theorem delta_integrand_homog (J : ℝ → ℝ) (nhat : ℝ) :
    delta_integrand J nhat = fun Epi => nhat * delta_integrand J 1 Epi := by
  funext Epi
  unfold delta_integrand
  ring

theorem calc_specpp_loE_homog (J : ℝ → ℝ) (quadInf : (ℝ → ℝ) → ℝ → ℝ)
    (hlin : ∀ (r : ℝ) (f : ℝ → ℝ) (a : ℝ),
      quadInf (fun x => r * f x) a = r * quadInf f a)
    (nhat Eg : ℝ) :
    calc_specpp_loE J quadInf nhat Eg = nhat * calc_specpp_loE J quadInf 1 Eg := by
  unfold calc_specpp_loE
  rw [delta_integrand_homog J nhat, hlin]
  ring

/-- C1: `PionDecay.flux` solves the calibration factor `nhat` once — as the
high-energy regime value at `Etrans` divided by the low-energy regime value
at `Etrans` computed with `nhat = 1` — whenever the requested energies
straddle `Etrans`, and with the calibrated `nhat` the delta-functional
formula at `Etrans` equals the direct-integral formula at `Etrans` exactly
(the quadrature being homogeneous in a constant factor and the uncalibrated
low-energy value nonzero); when all requested energies fall on one side of
`Etrans` the calibration is skipped and `nhat` remains 1.0. -/
theorem pd_nhat_calibration (J : ℝ → ℝ) (quad01 : (ℝ → ℝ) → ℝ)
    (quadInf : (ℝ → ℝ) → ℝ → ℝ) (Et Wp : ℝ) (E : List ℝ)
    (hlin : ∀ (r : ℝ) (f : ℝ → ℝ) (a : ℝ),
      quadInf (fun x => r * f x) a = r * quadInf f a)
    (hne : calc_specpp_loE J quadInf 1 Et ≠ 0) :
    (pdMixed E Et →
      (pdRun J quad01 quadInf Et Wp E).1.nhat =
          calc_specpp_hiE J quad01 Et / calc_specpp_loE J quadInf 1 Et ∧
        calc_specpp_loE J quadInf ((pdRun J quad01 quadInf Et Wp E).1.nhat) Et =
          calc_specpp_hiE J quad01 Et) ∧
    (¬ pdMixed E Et → (pdRun J quad01 quadInf Et Wp E).1.nhat = 1) := by
  have hproj : (pdRun J quad01 quadInf Et Wp E).1.nhat =
      pdNhat J quad01 quadInf Et E := rfl
  constructor
  · intro hmix
    have h1 : (pdRun J quad01 quadInf Et Wp E).1.nhat =
        calc_specpp_hiE J quad01 Et / calc_specpp_loE J quadInf 1 Et := by
      rw [hproj]
      unfold pdNhat
      rw [if_pos hmix, one_mul]
    refine ⟨h1, ?_⟩
    rw [h1, calc_specpp_loE_homog J quadInf hlin, div_mul_cancel₀ _ hne]
  · intro hmix
    rw [hproj]
    unfold pdNhat
    rw [if_neg hmix]

theorem pd_loE_witness_pos :
    0 < calc_specpp_loE pdJone pdQuadEval 1 0.1 := by
  unfold calc_specpp_loE pdQuadEval
  have hEpi : (1.1 : ℝ) ≤ 0.1 + mpiTeV ^ 2 / (4 * 0.1) + 1 := by
    have : (0:ℝ) ≤ mpiTeV ^ 2 / (4 * 0.1) := by positivity
    linarith
  have hEp0 : (0.1 : ℝ) < mpTeV + (0.1 + mpiTeV ^ 2 / (4 * 0.1) + 1) / Kpi := by
    have hm : (0:ℝ) < mpTeV := by norm_num [mpTeV]
    have hK : Kpi = 0.17 := by norm_num [Kpi]
    rw [hK]
    have h2 : (6:ℝ) ≤ (0.1 + mpiTeV ^ 2 / (4 * 0.1) + 1) / 0.17 := by
      rw [le_div_iff₀ (by norm_num : (0:ℝ) < 0.17)]
      linarith
    linarith
  have hsig : 0 < sigma_inel (mpTeV + (0.1 + mpiTeV ^ 2 / (4 * 0.1) + 1) / Kpi) :=
    sigma_inel_pos hEp0
  have hsqrt : 0 < Real.sqrt ((0.1 + mpiTeV ^ 2 / (4 * 0.1) + 1) ^ 2 + mpiTeV ^ 2) := by
    apply Real.sqrt_pos.mpr
    have : (0:ℝ) < 0.1 + mpiTeV ^ 2 / (4 * 0.1) + 1 := by linarith [hEpi]
    positivity
  unfold delta_integrand pdJone
  have hc : (0:ℝ) < cCGS := by norm_num [cCGS]
  have hK : (0:ℝ) < Kpi := by norm_num [Kpi]
  apply mul_pos two_pos
  apply div_pos
  · exact mul_pos (mul_pos (mul_pos hc (div_pos one_pos hK)) hsig) one_pos
  · exact hsqrt

/-- Witness for C1: with a unit distribution, point-evaluation quadratures
and the requested energies 1e10 eV (below 0.1 TeV) and 1e12 eV (above), the
calibrated delta-functional value at the transition equals the
direct-integral value there. -/
theorem pd_nhat_calibration_witness :
    calc_specpp_loE pdJone pdQuadEval
        ((pdRun pdJone pdQuadZero pdQuadEval 0.1 0 [1e10, 1e12]).1.nhat) 0.1 =
      calc_specpp_hiE pdJone pdQuadZero 0.1 := by
  have hmix : pdMixed [(1e10 : ℝ), 1e12] 0.1 := by
    constructor
    · exact ⟨1e10, by simp, by norm_num [eV2TeV]⟩
    · exact ⟨1e12, by simp, by norm_num [eV2TeV]⟩
  exact ((pd_nhat_calibration pdJone pdQuadZero pdQuadEval 0.1 0 [1e10, 1e12]
    (fun r f a => rfl) (ne_of_gt pd_loE_witness_pos)).1 hmix).2

/- ---------------------------------------------------------------- -/
/- Claim C10.                                                         -/
/- ---------------------------------------------------------------- -/

/-- C10: `PionDecay.flux` recomputes the calibration factor from scratch on
every call (resetting `nhat` to 1.0 before any dispatch), so the returned
spectrum depends only on the distribution, the quadratures, `Etrans` and the
requested energies: two instances whose `Etrans` attributes agree return the
same spectrum whatever their stale `nhat` values, and a second call on the
state left behind by a first call returns the first call's spectrum. -/
theorem pd_flux_state_independent (J : ℝ → ℝ) (quad01 : (ℝ → ℝ) → ℝ)
    (quadInf : (ℝ → ℝ) → ℝ → ℝ) (s s' : PDState) (E : List ℝ)
    (h : s.Etrans = s'.Etrans) :
    Except.map Prod.snd (pdFlux J quad01 quadInf s E) =
      Except.map Prod.snd (pdFlux J quad01 quadInf s' E) ∧
    (∀ p, pdFlux J quad01 quadInf s E = .ok p →
      ∀ q, pdFlux J quad01 quadInf p.1 E = .ok q → p.2 = q.2) := by
  constructor
  · cases hs : s.Etrans with
    | none =>
        have hs' : s'.Etrans = none := by rw [← h, hs]
        simp [pdFlux, hs, hs']
    | some t =>
        have hs' : s'.Etrans = some t := by rw [← h, hs]
        simp [pdFlux, hs, hs']
  · intro p hp q hq
    cases hs : s.Etrans with
    | none =>
        simp only [pdFlux, hs] at hp
        have hp' : pdRun J quad01 quadInf 0.1 (pdWp J quadInf) E = p :=
          Except.ok.inj hp
        subst hp'
        have hq' : (if (0:ℝ) < 0.1 then
            Except.ok (pdRun J quad01 quadInf 0.1 (pdWp J quadInf) E)
            else (Except.error () : Except Unit (PDState × List ℝ))) =
            Except.ok q := hq
        rw [if_pos (by norm_num : (0:ℝ) < 0.1)] at hq'
        rw [Except.ok.inj hq']
    | some t =>
        simp only [pdFlux, hs] at hp
        by_cases ht : 0 < t
        · rw [if_pos ht] at hp
          have hp' : pdRun J quad01 quadInf t (pdWp J quadInf) E = p :=
            Except.ok.inj hp
          subst hp'
          have hq' : (if 0 < t then
              Except.ok (pdRun J quad01 quadInf t (pdWp J quadInf) E)
              else (Except.error () : Except Unit (PDState × List ℝ))) =
              Except.ok q := hq
          rw [if_pos ht] at hq'
          rw [Except.ok.inj hq']
        · rw [if_neg ht] at hp
          exact absurd hp (by simp)

/-- Witness for C10: two fresh instances whose stale calibration factors
differ (5 and 7) return the same flux on the empty energy request. -/
theorem pd_flux_state_independent_witness :
    Except.map Prod.snd (pdFlux pdJone pdQuadZero pdQuadEval pdStateA []) =
      Except.map Prod.snd (pdFlux pdJone pdQuadZero pdQuadEval pdStateB []) :=
  (pd_flux_state_independent pdJone pdQuadZero pdQuadEval pdStateA pdStateB []
    rfl).1

/- ---------------------------------------------------------------- -/
/- List-level helper lemmas.                                          -/
/- ---------------------------------------------------------------- -/

theorem zipWith_add_zeros (f : ℝ → ℝ) (E : List ℝ) :
    List.zipWith (fun a b => a + b) (E.map (fun _ => (0:ℝ))) (E.map f) =
      E.map f := by
  induction E with
  | nil => rfl
  | cons e es ih =>
      simp only [List.map_cons, List.zipWith_cons_cons, zero_add]
      rw [ih]

theorem logspace_length (a b : ℝ) (n : ℕ) : (logspace a b n).length = n := by
  unfold logspace linspace
  rw [List.length_map, List.length_map, List.length_range]

theorem icFlux_length (J : ℝ → ℝ) (seeds : List (List Char × ℝ × ℝ))
    (E : List ℝ) : (icFlux J seeds E).length = E.length := by
  unfold icFlux
  suffices h : ∀ acc : List ℝ, acc.length = E.length →
      (seeds.foldl (fun acc sd => List.zipWith (fun a b => a + b) acc
        (E.map (calc_specic J sd.2.1 sd.2.2))) acc).length = E.length by
    exact h _ (by simp)
  induction seeds with
  | nil => intro acc ha; simpa using ha
  | cons sd rest ih =>
      intro acc ha
      simp only [List.foldl_cons]
      apply ih
      simp [ha]

/- ---------------------------------------------------------------- -/
/- Claim C2.                                                          -/
/- ---------------------------------------------------------------- -/

/-- C2: for each of the three models, `sed(E)` is the elementwise product of
`flux(E)` with the squared photon energies, converted to erg/s (for
`PionDecay` the relation holds under the exception monad, the state part
untouched); the flux lists have one entry per requested energy, so the
product is aligned elementwise. -/
theorem sed_flux_relation (J : ℝ → ℝ) (B : ℝ)
    (seeds : List (List Char × ℝ × ℝ)) (quad01 : (ℝ → ℝ) → ℝ)
    (quadInf : (ℝ → ℝ) → ℝ → ℝ) (s : PDState) (E : List ℝ) :
    syncSed J B E =
      List.zipWith (fun f en => f * en ^ 2 * eVtoErg) (syncFlux J B E) E ∧
    (syncFlux J B E).length = E.length ∧
    icSed J seeds E =
      List.zipWith (fun f en => f * en ^ 2 * eVtoErg) (icFlux J seeds E) E ∧
    (icFlux J seeds E).length = E.length ∧
    pdSed J quad01 quadInf s E =
      Except.map
        (fun p => (p.1, List.zipWith (fun f en => f * en ^ 2 * eVtoErg) p.2 E))
        (pdFlux J quad01 quadInf s E) := by
  refine ⟨rfl, by simp [syncFlux], rfl, icFlux_length J seeds E, ?_⟩
  unfold pdSed
  cases hf : pdFlux J quad01 quadInf s E with
  | error err => rfl
  | ok p =>
      cases p with
      | mk st sp => rfl

/- ---------------------------------------------------------------- -/
/- Claim C3.                                                          -/
/- ---------------------------------------------------------------- -/

/-- C3: for a fixed distribution and energy array, the flux of an
`InverseCompton` model constructed with the seed string `CMB-FIR` is the
elementwise sum of the per-seed contributions, which are exactly the fluxes
of the models constructed with `CMB` alone and with `FIR` alone. -/
theorem ic_seed_superposition (J : ℝ → ℝ) (E : List ℝ) :
    icFluxInput J (SeedInput.str "CMB-FIR".data) E =
      .ok (List.zipWith (fun a b => a + b)
        (E.map (calc_specic J Tcmb 1)) (E.map (calc_specic J Tfir firUf))) ∧
    icFluxInput J (SeedInput.str "CMB".data) E =
      .ok (E.map (calc_specic J Tcmb 1)) ∧
    icFluxInput J (SeedInput.str "FIR".data) E =
      .ok (E.map (calc_specic J Tfir firUf)) := by
  have hproc2 : processInputSeed (SeedInput.str "CMB-FIR".data) =
      .ok [(cmbName, Tcmb, 1), (firName, Tfir, firUf)] := rfl
  have hprocC : processInputSeed (SeedInput.str "CMB".data) =
      .ok [(cmbName, Tcmb, 1)] := rfl
  have hprocF : processInputSeed (SeedInput.str "FIR".data) =
      .ok [(firName, Tfir, firUf)] := rfl
  refine ⟨?_, ?_, ?_⟩
  · unfold icFluxInput
    rw [hproc2]
    show Except.ok (icFlux J [(cmbName, Tcmb, 1), (firName, Tfir, firUf)] E) = _
    congr 1
    unfold icFlux
    simp only [List.foldl_cons, List.foldl_nil]
    rw [zipWith_add_zeros]
  · unfold icFluxInput
    rw [hprocC]
    show Except.ok (icFlux J [(cmbName, Tcmb, 1)] E) = _
    congr 1
    unfold icFlux
    simp only [List.foldl_cons, List.foldl_nil]
    rw [zipWith_add_zeros]
  · unfold icFluxInput
    rw [hprocF]
    show Except.ok (icFlux J [(firName, Tfir, firUf)] E) = _
    congr 1
    unfold icFlux
    simp only [List.foldl_cons, List.foldl_nil]
    rw [zipWith_add_zeros]

/- ---------------------------------------------------------------- -/
/- Claim C7.                                                          -/
/- ---------------------------------------------------------------- -/

/-- C7: constructing an `InverseCompton` model with a single seed name string
that is none of `CMB`, `FIR`, `NIR` raises `TypeError` during
`_process_input_seed` (called from the constructor), so no flux can be
computed from it. -/
theorem ic_unrecognized_seed (s : List Char) (hsplit : splitDash s = [s])
    (h1 : s ≠ cmbName) (h2 : s ≠ firName) (h3 : s ≠ nirName) :
    processInputSeed (SeedInput.str s) = .error () ∧
    ∀ (J : ℝ → ℝ) (E : List ℝ),
      icFluxInput J (SeedInput.str s) E = .error () := by
  have hp : processInputSeed (SeedInput.str s) = .error () := by
    show processSeedItems ((splitDash s).map SeedItem.name) = .error ()
    rw [hsplit]
    simp only [List.map]
    unfold processSeedItems
    rw [if_neg h1, if_neg h2, if_neg h3]
  refine ⟨hp, fun J E => ?_⟩
  unfold icFluxInput
  rw [hp]
  rfl

/-- Witness for C7 with the seed string `XRAY`. -/
theorem ic_unrecognized_seed_witness :
    processInputSeed (SeedInput.str "XRAY".data) = .error () :=
  (ic_unrecognized_seed "XRAY".data (by decide) (by decide) (by decide)
    (by decide)).1

/- ---------------------------------------------------------------- -/
/- Claim C9.                                                          -/
/- ---------------------------------------------------------------- -/

/-- C9: an `InverseCompton` model built from an empty seed list is accepted
(no error), and its flux on any energy array is the all-zero spectrum with
one entry per requested energy. -/
theorem ic_empty_seed_flux (J : ℝ → ℝ) (E : List ℝ) :
    processInputSeed (SeedInput.list []) = .ok [] ∧
    icFluxInput J (SeedInput.list []) E = .ok (E.map (fun _ => 0)) ∧
    (icFlux J [] E).length = E.length := by
  refine ⟨rfl, rfl, ?_⟩
  simp [icFlux]

/- ---------------------------------------------------------------- -/
/- Claims C5 and C6 (grid sizes).                                     -/
/- ---------------------------------------------------------------- -/

/-- C5 evidence: the particle grid built on every `Synchrotron.flux` call has
`100 * 10 / 4 = 250` log-spaced points over the six decades from 1e4 to 1e10
— not the 600 points that 100 points per decade would give: the source's
count formula `ngamd * log10gmax / log10gmin` divides by the lower exponent
instead of multiplying by the decade span. -/
theorem sync_grid_count : syncGam.length = 250 := by
  unfold syncGam
  rw [logspace_length 4 10 syncNgam]
  rfl

/-- C6 evidence: the particle grid built on every `InverseCompton.flux` call
has `int(300 * 10.5 / 4) = 787` log-spaced points over the 6.5 decades from
1e4 to 1e10.5 — not the 1950 points that 300 points per decade would give. -/
theorem ic_grid_count : icGam.length = 787 := by
  unfold icGam
  rw [logspace_length 4 10.5 icNgam]
  rfl
